import Mathlib

/-!
Verification of the ARG (Alternate Reality Game) Flask backend (`app.py`).

The repository is a thin stateful web backend with two operations:
`generate_story` (StartGame) builds a prompt from a difficulty and a genre,
calls an external generative model, installs the returned story in a
process-wide state slot, and returns the first puzzle; `check_answer`
(CheckAnswer) compares a submitted answer with the stored solution of the
current puzzle and advances or reports.

We embed the data model and the two request handlers as pure Lean
functions.  The external generation call is an input to the embedding
(an `Except` value: the parsed story on success, the exception text on
failure), and the process-wide mutable `GAME_STATE` dictionary becomes an
explicit state value threaded through the handlers.  Python string
normalization (`.strip().lower()`) is modelled on the ASCII range, which
covers every string literal in the program.
-/

namespace ARG

/-- A character Python's `str.strip()` removes (ASCII whitespace range). -/
def isPySpace (c : Char) : Bool :=
  c == ' ' || c == '\t' || c == '\n' || c == '\r' || c == '\x0b' || c == '\x0c'

/-- Python `s.strip()`: drop leading and trailing whitespace. -/
def pyStrip (s : String) : String :=
  ⟨((s.data.dropWhile isPySpace).reverse.dropWhile isPySpace).reverse⟩

/-- Python `s.lower()` on the ASCII range: lowercase each character. -/
def pyLower (s : String) : String :=
  ⟨s.data.map Char.toLower⟩

/-- The answer normalization used on both sides of the comparison in
`check_answer`: `.strip().lower()`. -/
def normalize (s : String) : String :=
  pyLower (pyStrip s)

/-- One puzzle object of a generated story (the `PUZZLE_SCHEMA` shape). -/
structure Puzzle where
  puzzle_number : Int
  title : String
  puzzle_text : String
  solution : String
  narrative_continuation : String
  hint_1 : String
  hint_2 : String
  hint_3 : String
deriving Repr, DecidableEq

/-- A generated story (the `STORY_SCHEMA` shape). -/
structure Story where
  story_title : String
  introduction : String
  puzzles : List Puzzle
  ending_text : String
deriving Repr, DecidableEq

/-- The process-wide `GAME_STATE` dictionary.  The Python dict starts empty
and the handlers only ever populate the keys `story` and
`current_puzzle_index` together, so it is modelled as an optional story
plus an index (the index is only read when a story is present). -/
structure GameState where
  story : Option Story
  current_puzzle_index : Nat
deriving Repr, DecidableEq

/-- The empty `GAME_STATE = {}` at process start. -/
def initialState : GameState := ⟨none, 0⟩

/-- The JSON response of `check_answer`, one constructor per `return`
statement of the handler. -/
inductive AnswerResult where
  /-- `{"error": "Game not initialized. Please start a new game."}`, 400. -/
  | notStarted
  /-- `{"success": False, "message": "Game already finished."}`, 200. -/
  | alreadyFinished
  /-- `{"success": True, "status": "correct", ...}`, 200. -/
  | correct (narrative : String) (puzzle : Puzzle) (puzzle_index : Nat)
  /-- `{"success": True, "status": "complete", ...}`, 200. -/
  | complete (narrative : String) (ending_text : String)
  /-- `{"success": True, "status": "incorrect", ...}`, 200. -/
  | incorrect
deriving Repr, DecidableEq

namespace AnswerResult

/-- The HTTP status code attached to each `check_answer` response. -/
def httpStatus : AnswerResult → Nat
  | notStarted => 400
  | _ => 200

/-- Whether the response is an error payload (`{"error": ...}`). -/
def isError : AnswerResult → Bool
  | notStarted => true
  | _ => false

/-- The value of the `success` field of the JSON body, when present. -/
def successField : AnswerResult → Option Bool
  | notStarted => none
  | alreadyFinished => some false
  | _ => some true

/-- Whether the handler declared the submitted answer correct (the two
`user_answer == correct_solution` branches). -/
def accepted : AnswerResult → Bool
  | correct _ _ _ => true
  | complete _ _ => true
  | _ => false

end AnswerResult

/-- The `check_answer` handler: given the session state and the submitted
answer string (`data.get('answer', '')`), return the JSON response and the
state after the request. -/
def check_answer (st : GameState) (answer : String) : AnswerResult × GameState :=
  let user_answer := pyLower (pyStrip answer)
  match st.story with
  | none => (.notStarted, st)
  | some story_data =>
    let current_index := st.current_puzzle_index
    if h : story_data.puzzles.length ≤ current_index then
      (.alreadyFinished, st)
    else
      let current_puzzle := story_data.puzzles.get ⟨current_index, by omega⟩
      let correct_solution := pyLower (pyStrip current_puzzle.solution)
      if user_answer = correct_solution then
        let next_index := current_index + 1
        let st' : GameState := { st with current_puzzle_index := next_index }
        if h2 : next_index < story_data.puzzles.length then
          (.correct current_puzzle.narrative_continuation
            (story_data.puzzles.get ⟨next_index, h2⟩) (next_index + 1), st')
        else
          (.complete current_puzzle.narrative_continuation story_data.ending_text, st')
      else
        (.incorrect, st)

/-- The `TONE_MAP` lookup (`TONE_MAP.get(genre, "Neutral and clear.")`):
the fixed genre-to-tone table with its neutral default. -/
def TONE_MAP (genre : String) : String :=
  if genre = "Sci-fi" then
    "Clinical, technical, focused on cosmic scale, system failures, or computer logs."
  else if genre = "Medieval" then
    "Mythic, slightly formal, referring to royalty, oaths, divine law, and ancient structures."
  else if genre = "Mythological" then
    "Epic, archaic language, focused on fate, gods, heroes, and destiny."
  else if genre = "Horror" then
    "Suspenseful, sensory, using first-person dread, panic, and environmental details (smell, cold)."
  else if genre = "Modern" then
    "Casual, journalistic, focused on news reports, conspiracy theories, or digital communications (text messages)."
  else
    "Neutral and clear."

/-- The `difficulty_map` lookup (`difficulty_map.get(difficulty, 5)`):
Easy maps to 7 puzzles, Medium to 5, Hard to 3, anything else to 5. -/
def difficulty_map (difficulty : String) : Nat :=
  if difficulty = "Easy" then 7
  else if difficulty = "Medium" then 5
  else if difficulty = "Hard" then 3
  else 5

/-- The composed `user_prompt` f-string of `generate_story`. -/
def user_prompt (num_puzzles : Nat) (difficulty genre narrative_tone : String) : String :=
  "Generate a complete **" ++ toString num_puzzles ++ "-puzzle** ARG story. " ++
  "Difficulty: **" ++ difficulty ++ "**. Genre: **" ++ genre ++ "**. " ++
  "Narrative Tone: **" ++ narrative_tone ++ "**. " ++
  "Ensure the puzzles blend into the narrative and the difficulty level is accurately represented."

/-- The JSON response of `generate_story`, one constructor per `return`
statement of the handler. -/
inductive GenResponse where
  /-- `{"error": "Gemini API client not initialized. Check your API key."}`, 500. -/
  | clientError
  /-- `{"error": "Missing difficulty or genre."}`, 400. -/
  | invalidRequest
  /-- `{"error": "Failed to generate story with Gemini: " + e}`, 500
  (the `except` clause; `e` is the exception text). -/
  | genError (e : String)
  /-- `{"success": True, "title", "introduction", "puzzle", "puzzle_index",
  "total_puzzles"}`, 200. -/
  | success (title introduction : String) (puzzle : Puzzle)
      (puzzle_index : Nat) (total_puzzles : Nat)
deriving Repr, DecidableEq

namespace GenResponse

/-- The HTTP status code attached to each `generate_story` response. -/
def httpStatus : GenResponse → Nat
  | clientError => 500
  | invalidRequest => 400
  | genError _ => 500
  | success _ _ _ _ _ => 200

/-- Whether the response is an error payload (`{"error": ...}`). -/
def isError : GenResponse → Bool
  | success _ _ _ _ _ => false
  | _ => true

end GenResponse

/-- The outcome of one `generate_story` request: the JSON response, the
session state after the request, and whether the puzzle-count-mismatch
warning was printed. -/
structure StartResult where
  response : GenResponse
  state : GameState
  warned : Bool
deriving Repr, DecidableEq

/-- Python truthiness of `data.get(key)` for a string field: `None`
(absent key) and the empty string are falsy. -/
def pyTruthy : Option String → Bool
  | none => false
  | some s => !s.isEmpty

/-- The `generate_story` handler.  `clientOk` is whether the Gemini client
was initialized at process start (`client` is not `None`); `difficulty`
and `genre` are `data.get('difficulty')` and `data.get('genre')` (absent
keys give `none`); `gen` maps the composed user prompt to the outcome of
the external `client.models.generate_content` call followed by
`json.loads` — the parsed story on success, the exception text on
failure.  Mirrors the source order: the client check precedes the field
check, the state is mutated before the first puzzle is read, and an
exception raised by indexing an empty puzzle list is caught by the same
`except` clause as a generation failure. -/
def generate_story (clientOk : Bool) (difficulty genre : Option String)
    (gen : String → Except String Story) (st : GameState) : StartResult :=
  if !clientOk then
    ⟨.clientError, st, false⟩
  else if !(pyTruthy difficulty) || !(pyTruthy genre) then
    ⟨.invalidRequest, st, false⟩
  else
    let d := difficulty.getD ""
    let g := genre.getD ""
    let num_puzzles := difficulty_map d
    let narrative_tone := TONE_MAP g
    match gen (user_prompt num_puzzles d g narrative_tone) with
    | .error e => ⟨.genError e, st, false⟩
    | .ok story_data =>
      let warned := story_data.puzzles.length ≠ num_puzzles
      let st' : GameState := ⟨some story_data, 0⟩
      match story_data.puzzles with
      | [] =>
        -- `story_data['puzzles'][0]` raises IndexError, caught by the
        -- same `except` clause after the state was already written.
        ⟨.genError "list index out of range", st', warned⟩
      | current_puzzle :: _ =>
        ⟨.success story_data.story_title story_data.introduction
          current_puzzle 1 story_data.puzzles.length, st', warned⟩

/-! ### Helper lemmas characterizing the branches of `check_answer` -/

/-- With no story installed, `check_answer` returns the not-started error
and leaves the state alone. -/
lemma check_answer_none {st : GameState} (hs : st.story = none) (ans : String) :
    check_answer st ans = (.notStarted, st) := by
  unfold check_answer
  rw [hs]

/-- With the index at or past the end, `check_answer` returns the
already-finished response and leaves the state alone. -/
lemma check_answer_finished {st : GameState} {s : Story} (hs : st.story = some s)
    (h : s.puzzles.length ≤ st.current_puzzle_index) (ans : String) :
    check_answer st ans = (.alreadyFinished, st) := by
  unfold check_answer
  rw [hs]
  simp only [dif_pos h]

/-- With a mismatching normalized answer, `check_answer` returns the
incorrect response and leaves the state alone. -/
lemma check_answer_mismatch {st : GameState} {s : Story} (hs : st.story = some s)
    (h : st.current_puzzle_index < s.puzzles.length) {ans : String}
    (hm : normalize ans ≠
      normalize ((s.puzzles.get ⟨st.current_puzzle_index, h⟩).solution)) :
    check_answer st ans = (.incorrect, st) := by
  simp only [normalize] at hm
  unfold check_answer
  rw [hs]
  simp only [dif_neg (by omega : ¬ s.puzzles.length ≤ st.current_puzzle_index)]
  rw [if_neg hm]

/-- With a matching normalized answer and a next puzzle available,
`check_answer` returns the correct response and advances the index. -/
lemma check_answer_match_next {st : GameState} {s : Story} (hs : st.story = some s)
    (h : st.current_puzzle_index < s.puzzles.length) {ans : String}
    (hm : normalize ans =
      normalize ((s.puzzles.get ⟨st.current_puzzle_index, h⟩).solution))
    (h2 : st.current_puzzle_index + 1 < s.puzzles.length) :
    check_answer st ans =
      (.correct ((s.puzzles.get ⟨st.current_puzzle_index, h⟩).narrative_continuation)
        (s.puzzles.get ⟨st.current_puzzle_index + 1, h2⟩)
        (st.current_puzzle_index + 2),
       { st with current_puzzle_index := st.current_puzzle_index + 1 }) := by
  simp only [normalize] at hm
  unfold check_answer
  rw [hs]
  simp only [dif_neg (by omega : ¬ s.puzzles.length ≤ st.current_puzzle_index)]
  rw [if_pos hm]
  simp only [dif_pos h2]

/-- With a matching normalized answer and no next puzzle, `check_answer`
returns the complete response and advances the index. -/
lemma check_answer_match_last {st : GameState} {s : Story} (hs : st.story = some s)
    (h : st.current_puzzle_index < s.puzzles.length) {ans : String}
    (hm : normalize ans =
      normalize ((s.puzzles.get ⟨st.current_puzzle_index, h⟩).solution))
    (h2 : s.puzzles.length ≤ st.current_puzzle_index + 1) :
    check_answer st ans =
      (.complete ((s.puzzles.get ⟨st.current_puzzle_index, h⟩).narrative_continuation)
        s.ending_text,
       { st with current_puzzle_index := st.current_puzzle_index + 1 }) := by
  simp only [normalize] at hm
  unfold check_answer
  rw [hs]
  simp only [dif_neg (by omega : ¬ s.puzzles.length ≤ st.current_puzzle_index)]
  rw [if_pos hm]
  simp only [dif_neg (by omega : ¬ st.current_puzzle_index + 1 < s.puzzles.length)]

/-! ### Concrete data for witnesses and counterexamples -/

/-- A concrete puzzle with the given number, solution and narrative. -/
def mkPuzzle (n : Int) (sol nar : String) : Puzzle :=
  ⟨n, "t", "p", sol, nar, "h1", "h2", "h3"⟩

/-- A concrete two-puzzle story whose first solution is `"answer"`. -/
def sampleStory : Story :=
  ⟨"Title", "Intro", [mkPuzzle 1 "answer" "n1", mkPuzzle 2 "code two" "n2"], "The End"⟩

/-- A concrete one-puzzle story (used for StartGame witnesses). -/
def oneStory : Story :=
  ⟨"T1", "I1", [mkPuzzle 1 "key" "n1"], "E1"⟩

/-- A concrete story whose puzzle list is empty. -/
def emptyStory : Story :=
  ⟨"T0", "I0", [], "E0"⟩

/-! ### Claim theorems -/

/-- C1: for every stored story and submitted answer (with the current
index in range), `check_answer` declares the answer correct exactly when
the answer, trimmed and lowercased, is string-equal to the current
solution, trimmed and lowercased — no fuzzy matching, no partial
credit. -/
theorem check_answer_accepts_iff_normalized_equal
    (st : GameState) (s : Story) (hs : st.story = some s)
    (h : st.current_puzzle_index < s.puzzles.length) (ans : String) :
    (check_answer st ans).1.accepted = true ↔
      normalize ans =
        normalize ((s.puzzles.get ⟨st.current_puzzle_index, h⟩).solution) := by
  by_cases hm : normalize ans =
      normalize ((s.puzzles.get ⟨st.current_puzzle_index, h⟩).solution)
  · by_cases h2 : st.current_puzzle_index + 1 < s.puzzles.length
    · rw [check_answer_match_next hs h hm h2]
      simp [AnswerResult.accepted, hm]
    · rw [check_answer_match_last hs h hm (by omega)]
      simp [AnswerResult.accepted, hm]
  · rw [check_answer_mismatch hs h hm]
    simpa [AnswerResult.accepted] using hm

/-- Witness for C1: on a stored solution `"answer"`, the submissions
`"Answer"`, `" answer "` and `"ANSWER"` are accepted and `"answr"` is
not. -/
theorem check_answer_accepts_iff_normalized_equal_witness :
    (check_answer ⟨some sampleStory, 0⟩ "Answer").1.accepted = true ∧
    (check_answer ⟨some sampleStory, 0⟩ " answer ").1.accepted = true ∧
    (check_answer ⟨some sampleStory, 0⟩ "ANSWER").1.accepted = true ∧
    (check_answer ⟨some sampleStory, 0⟩ "answr").1.accepted = false := by
  refine ⟨?_, ?_, ?_, ?_⟩
  · exact (check_answer_accepts_iff_normalized_equal ⟨some sampleStory, 0⟩ sampleStory
      rfl (by decide) "Answer").mpr (by decide)
  · exact (check_answer_accepts_iff_normalized_equal ⟨some sampleStory, 0⟩ sampleStory
      rfl (by decide) " answer ").mpr (by decide)
  · exact (check_answer_accepts_iff_normalized_equal ⟨some sampleStory, 0⟩ sampleStory
      rfl (by decide) "ANSWER").mpr (by decide)
  · decide

/-- C2: on a match with the current index in range, `check_answer`
increments the index by exactly one; if a puzzle exists at the new index
it returns status correct with the solved puzzle's narrative
continuation, the next puzzle and its 1-based position (new index + 1);
otherwise it returns status complete with the narrative continuation and
the story's ending text. -/
theorem check_answer_match_advances
    (st : GameState) (s : Story) (hs : st.story = some s)
    (h : st.current_puzzle_index < s.puzzles.length) (ans : String)
    (hm : normalize ans =
      normalize ((s.puzzles.get ⟨st.current_puzzle_index, h⟩).solution)) :
    (check_answer st ans).2 =
      { st with current_puzzle_index := st.current_puzzle_index + 1 } ∧
    (∀ h2 : st.current_puzzle_index + 1 < s.puzzles.length,
      (check_answer st ans).1 =
        .correct ((s.puzzles.get ⟨st.current_puzzle_index, h⟩).narrative_continuation)
          (s.puzzles.get ⟨st.current_puzzle_index + 1, h2⟩)
          (st.current_puzzle_index + 2)) ∧
    (s.puzzles.length ≤ st.current_puzzle_index + 1 →
      (check_answer st ans).1 =
        .complete ((s.puzzles.get ⟨st.current_puzzle_index, h⟩).narrative_continuation)
          s.ending_text) := by
  by_cases h2 : st.current_puzzle_index + 1 < s.puzzles.length
  · rw [check_answer_match_next hs h hm h2]
    exact ⟨rfl, fun _ => rfl, fun hc => absurd h2 (by omega)⟩
  · rw [check_answer_match_last hs h hm (by omega)]
    exact ⟨rfl, fun hc => absurd hc h2, fun _ => rfl⟩

/-- Witness for C2: solving puzzle 1 of the two-puzzle sample story
advances the index to 1 and returns the correct response carrying
puzzle 2 at 1-based position 2; solving puzzle 2 then returns the
complete response with the ending text. -/
theorem check_answer_match_advances_witness :
    (check_answer ⟨some sampleStory, 0⟩ "Answer").2 = ⟨some sampleStory, 1⟩ ∧
    (check_answer ⟨some sampleStory, 0⟩ "Answer").1 =
      .correct "n1" (mkPuzzle 2 "code two" "n2") 2 ∧
    (check_answer ⟨some sampleStory, 1⟩ " CODE TWO ").2 = ⟨some sampleStory, 2⟩ ∧
    (check_answer ⟨some sampleStory, 1⟩ " CODE TWO ").1 = .complete "n2" "The End" := by
  obtain ⟨ha, hb, -⟩ := check_answer_match_advances ⟨some sampleStory, 0⟩ sampleStory
    rfl (by decide) "Answer" (by decide)
  obtain ⟨hc, -, hd⟩ := check_answer_match_advances ⟨some sampleStory, 1⟩ sampleStory
    rfl (by decide) " CODE TWO " (by decide)
  exact ⟨ha, hb (by decide), hc, hd (by decide)⟩

/-- C3: with a story installed and the current index at or past the
puzzle count, `check_answer` returns the already-finished response — an
HTTP 200 payload, not an error — leaves the session state completely
unchanged, and a repeated call in the resulting state returns the same
response again. -/
theorem check_answer_already_finished
    (st : GameState) (s : Story) (hs : st.story = some s)
    (h : s.puzzles.length ≤ st.current_puzzle_index) (ans ans2 : String) :
    check_answer st ans = (.alreadyFinished, st) ∧
    AnswerResult.httpStatus (check_answer st ans).1 = 200 ∧
    AnswerResult.isError (check_answer st ans).1 = false ∧
    check_answer (check_answer st ans).2 ans2 = (.alreadyFinished, st) := by
  have h1 := check_answer_finished hs h ans
  refine ⟨h1, ?_, ?_, ?_⟩
  · rw [h1]; rfl
  · rw [h1]; rfl
  · rw [h1]
    exact check_answer_finished hs h ans2

/-- Witness for C3: with the two-puzzle sample story finished (index 2),
two consecutive submissions both return the already-finished response
and leave the state at index 2. -/
theorem check_answer_already_finished_witness :
    check_answer ⟨some sampleStory, 2⟩ "answer" = (.alreadyFinished, ⟨some sampleStory, 2⟩) ∧
    check_answer (check_answer ⟨some sampleStory, 2⟩ "answer").2 "code two" =
      (.alreadyFinished, ⟨some sampleStory, 2⟩) := by
  obtain ⟨ha, -, -, hb⟩ := check_answer_already_finished ⟨some sampleStory, 2⟩ sampleStory
    rfl (by decide) "answer" "code two"
  exact ⟨ha, hb⟩

/-- C8: with a story installed and the current index in range, a
mismatching submission returns the incorrect response and leaves the
whole session state unchanged, and any sequence of consecutive
mismatching submissions leaves the state unchanged as well. -/
theorem check_answer_incorrect_unchanged
    (st : GameState) (s : Story) (hs : st.story = some s)
    (h : st.current_puzzle_index < s.puzzles.length) (ans : String)
    (hm : normalize ans ≠
      normalize ((s.puzzles.get ⟨st.current_puzzle_index, h⟩).solution)) :
    check_answer st ans = (.incorrect, st) ∧
    ∀ answers : List String,
      (∀ a ∈ answers, normalize a ≠
        normalize ((s.puzzles.get ⟨st.current_puzzle_index, h⟩).solution)) →
      answers.foldl (fun t a => (check_answer t a).2) st = st := by
  refine ⟨check_answer_mismatch hs h hm, ?_⟩
  intro answers
  induction answers with
  | nil => intro _; rfl
  | cons a rest ih =>
    intro hall
    have hstep : check_answer st a = (.incorrect, st) :=
      check_answer_mismatch hs h (hall a (List.mem_cons_self a rest))
    calc (a :: rest).foldl (fun t a => (check_answer t a).2) st
        = rest.foldl (fun t a => (check_answer t a).2) (check_answer st a).2 := rfl
      _ = rest.foldl (fun t a => (check_answer t a).2) st := by rw [hstep]
      _ = st := ih (fun b hb => hall b (List.mem_cons_of_mem a hb))

/-- Witness for C8: submitting `"answr"` against the sample story leaves
the state at index 0 and returns incorrect, and the three-element run of
wrong answers also leaves the state unchanged. -/
theorem check_answer_incorrect_unchanged_witness :
    check_answer ⟨some sampleStory, 0⟩ "answr" = (.incorrect, ⟨some sampleStory, 0⟩) ∧
    ["answr", "wrong", "ANSWERS"].foldl (fun t a => (check_answer t a).2)
      ⟨some sampleStory, 0⟩ = ⟨some sampleStory, 0⟩ := by
  obtain ⟨ha, hb⟩ := check_answer_incorrect_unchanged ⟨some sampleStory, 0⟩ sampleStory
    rfl (by decide) "answr" (by decide)
  exact ⟨ha, hb ["answr", "wrong", "ANSWERS"] (by decide)⟩

/-- C9: with no story ever installed, `check_answer` fails with the
not-started error (HTTP 400) and leaves the session state exactly as it
was — no partial state is created. -/
theorem check_answer_not_started
    (st : GameState) (hs : st.story = none) (ans : String) :
    check_answer st ans = (.notStarted, st) ∧
    AnswerResult.httpStatus (check_answer st ans).1 = 400 ∧
    AnswerResult.isError (check_answer st ans).1 = true := by
  have h1 := check_answer_none hs ans
  exact ⟨h1, by rw [h1]; rfl, by rw [h1]; rfl⟩

/-- Witness for C9: on the initial empty state, a submission returns the
400 not-started error and the state stays empty. -/
theorem check_answer_not_started_witness :
    check_answer initialState "answer" = (.notStarted, initialState) ∧
    AnswerResult.httpStatus (check_answer initialState "answer").1 = 400 := by
  obtain ⟨ha, hb, -⟩ := check_answer_not_started initialState rfl "answer"
  exact ⟨ha, hb⟩

/-! ### Helper lemmas characterizing the branches of `generate_story` -/

/-- A present, non-empty string field is truthy. -/
lemma pyTruthy_some {s : String} (h : s ≠ "") : pyTruthy (some s) = true := by
  have he : s.isEmpty = false := by
    rw [Bool.eq_false_iff]
    intro hc
    exact h ((String.isEmpty_iff s).mp hc)
  simp [pyTruthy, he]

/-- With the client uninitialized, `generate_story` short-circuits with
the 500 client error, before any field check. -/
lemma generate_story_no_client (difficulty genre : Option String)
    (gen : String → Except String Story) (st : GameState) :
    generate_story false difficulty genre gen st = ⟨.clientError, st, false⟩ := rfl

/-- With the client initialized and a falsy difficulty or genre,
`generate_story` returns the 400 missing-fields error. -/
lemma generate_story_falsy_field {difficulty genre : Option String}
    (hmiss : pyTruthy difficulty = false ∨ pyTruthy genre = false)
    (gen : String → Except String Story) (st : GameState) :
    generate_story true difficulty genre gen st = ⟨.invalidRequest, st, false⟩ := by
  unfold generate_story
  rcases hmiss with hm | hm <;> simp [hm]

/-- With valid fields and a generation failure, `generate_story`
propagates the failure and leaves the state alone. -/
lemma generate_story_gen_error {d g : String} (hd : d ≠ "") (hg : g ≠ "")
    (gen : String → Except String Story) {e : String}
    (hgen : gen (user_prompt (difficulty_map d) d g (TONE_MAP g)) = .error e)
    (st : GameState) :
    generate_story true (some d) (some g) gen st = ⟨.genError e, st, false⟩ := by
  unfold generate_story
  simp [pyTruthy_some hd, pyTruthy_some hg, hgen]

/-- With valid fields and a successful generation whose puzzle list is
non-empty, `generate_story` installs the story at index 0 and returns
the success payload built from the returned story; the mismatch warning
fires exactly when the returned count differs from the requested one. -/
lemma generate_story_ok_cons {d g : String} (hd : d ≠ "") (hg : g ≠ "")
    (gen : String → Except String Story) (s : Story) {p : Puzzle} {rest : List Puzzle}
    (hp : s.puzzles = p :: rest)
    (hgen : gen (user_prompt (difficulty_map d) d g (TONE_MAP g)) = .ok s)
    (st : GameState) :
    generate_story true (some d) (some g) gen st =
      ⟨.success s.story_title s.introduction p 1 s.puzzles.length, ⟨some s, 0⟩,
        decide (s.puzzles.length ≠ difficulty_map d)⟩ := by
  unfold generate_story
  simp only [Bool.not_true, Bool.or_self, Bool.false_eq_true, if_false,
    pyTruthy_some hd, pyTruthy_some hg, Option.getD_some, hgen]
  rw [hp]

/-- With valid fields and a successful generation whose puzzle list is
empty, `generate_story` installs the empty story at index 0 and then
fails with the caught IndexError as a 500 generation error. -/
lemma generate_story_ok_nil {d g : String} (hd : d ≠ "") (hg : g ≠ "")
    (gen : String → Except String Story) (s : Story)
    (hp : s.puzzles = [])
    (hgen : gen (user_prompt (difficulty_map d) d g (TONE_MAP g)) = .ok s)
    (st : GameState) :
    generate_story true (some d) (some g) gen st =
      ⟨.genError "list index out of range", ⟨some s, 0⟩,
        decide (s.puzzles.length ≠ difficulty_map d)⟩ := by
  unfold generate_story
  simp only [Bool.not_true, Bool.or_self, Bool.false_eq_true, if_false,
    pyTruthy_some hd, pyTruthy_some hg, Option.getD_some, hgen]
  rw [hp]

/-- C4 counterexample: with the client uninitialized and the difficulty
field absent, `generate_story` responds with the 500 client error, not
the 400 missing-fields error — the client check precedes the field
check. -/
theorem generate_story_missing_fields_counterexample :
    (generate_story false none (some "Horror") (fun _ => .error "down")
      initialState).response = .clientError ∧
    GenResponse.httpStatus (generate_story false none (some "Horror")
      (fun _ => .error "down") initialState).response = 500 ∧
    (generate_story false none (some "Horror") (fun _ => .error "down")
      initialState).response ≠ .invalidRequest := by
  refine ⟨rfl, rfl, ?_⟩
  rw [generate_story_no_client]
  decide

/-- C4 (amended): with the generation client initialized, a StartGame
request whose difficulty or genre field is absent or empty fails with
the 400 missing-fields error, regardless of the generation outcome and
the prior state. -/
theorem generate_story_missing_fields
    (difficulty genre : Option String)
    (hmiss : pyTruthy difficulty = false ∨ pyTruthy genre = false)
    (gen : String → Except String Story) (st : GameState) :
    generate_story true difficulty genre gen st = ⟨.invalidRequest, st, false⟩ ∧
    GenResponse.httpStatus (generate_story true difficulty genre gen st).response = 400 ∧
    GenResponse.isError (generate_story true difficulty genre gen st).response = true := by
  have h1 := generate_story_falsy_field hmiss gen st
  exact ⟨h1, by rw [h1]; rfl, by rw [h1]; rfl⟩

/-- Witness for C4 (amended): with the client initialized and an empty
difficulty string, the request fails with the 400 missing-fields
error. -/
theorem generate_story_missing_fields_witness :
    generate_story true (some "") (some "Horror") (fun _ => .ok oneStory)
      initialState = ⟨.invalidRequest, initialState, false⟩ := by
  obtain ⟨h1, -, -⟩ := generate_story_missing_fields (some "") (some "Horror")
    (Or.inl (by decide)) (fun _ => .ok oneStory) initialState
  exact h1

/-- C5 counterexample: with difficulty Medium (requested count 5) and a
successful generation returning a zero-puzzle story — a count mismatch —
the handler logs the mismatch warning but then surfaces a 500
generation-failure error instead of a success response. -/
theorem generate_story_mismatch_counterexample :
    (generate_story true (some "Medium") (some "Sci-fi") (fun _ => .ok emptyStory)
      initialState).warned = true ∧
    (generate_story true (some "Medium") (some "Sci-fi") (fun _ => .ok emptyStory)
      initialState).response = .genError "list index out of range" ∧
    GenResponse.isError (generate_story true (some "Medium") (some "Sci-fi")
      (fun _ => .ok emptyStory) initialState).response = true ∧
    GenResponse.httpStatus (generate_story true (some "Medium") (some "Sci-fi")
      (fun _ => .ok emptyStory) initialState).response = 500 := by
  have h1 := generate_story_ok_nil (show "Medium" ≠ "" by decide)
    (show "Sci-fi" ≠ "" by decide) (fun _ => .ok emptyStory) emptyStory rfl rfl
    initialState
  refine ⟨?_, ?_, ?_, ?_⟩ <;> rw [h1] <;> rfl

/-- C5 (amended): a successful generation whose puzzle count differs
from the requested count is tolerated whenever the returned puzzle list
is non-empty: the mismatch warning is logged, the story is installed at
index 0, and the response is the success payload reporting the actual
returned count — the mismatch is not surfaced as an error.  (When the
returned list is empty, reading the first puzzle raises and the handler
responds with a 500 generation-failure error instead.) -/
theorem generate_story_mismatch_tolerated
    (d g : String) (hd : d ≠ "") (hg : g ≠ "")
    (gen : String → Except String Story) (s : Story) (p : Puzzle) (rest : List Puzzle)
    (hp : s.puzzles = p :: rest)
    (hgen : gen (user_prompt (difficulty_map d) d g (TONE_MAP g)) = .ok s)
    (hmm : s.puzzles.length ≠ difficulty_map d) (st : GameState) :
    generate_story true (some d) (some g) gen st =
      ⟨.success s.story_title s.introduction p 1 s.puzzles.length, ⟨some s, 0⟩, true⟩ := by
  rw [generate_story_ok_cons hd hg gen s hp hgen st]
  simp [hmm]

/-- Witness for C5 (amended): difficulty Medium requests 5 puzzles, the
generation returns the one-puzzle story, and the handler still succeeds
with `total_puzzles = 1`, installs the story, and warns. -/
theorem generate_story_mismatch_tolerated_witness :
    generate_story true (some "Medium") (some "Western") (fun _ => .ok oneStory)
      initialState =
      ⟨.success "T1" "I1" (mkPuzzle 1 "key" "n1") 1 1, ⟨some oneStory, 0⟩, true⟩ :=
  generate_story_mismatch_tolerated "Medium" "Western" (by decide) (by decide)
    (fun _ => .ok oneStory) oneStory (mkPuzzle 1 "key" "n1") [] rfl rfl
    (by decide) initialState

/-- C6: a successful generation returning an empty puzzle list makes
StartGame respond with a 500 generation-failure error, yet the empty
story has already been installed with the index reset to 0, so every
subsequent `check_answer` returns the already-finished response rather
than the not-started error. -/
theorem generate_story_empty_story_mutates
    (d g : String) (hd : d ≠ "") (hg : g ≠ "")
    (gen : String → Except String Story) (s : Story) (hp : s.puzzles = [])
    (hgen : gen (user_prompt (difficulty_map d) d g (TONE_MAP g)) = .ok s)
    (st : GameState) :
    (generate_story true (some d) (some g) gen st).response =
      .genError "list index out of range" ∧
    GenResponse.httpStatus
      (generate_story true (some d) (some g) gen st).response = 500 ∧
    (generate_story true (some d) (some g) gen st).state = ⟨some s, 0⟩ ∧
    ∀ ans, check_answer (generate_story true (some d) (some g) gen st).state ans =
      (.alreadyFinished, (generate_story true (some d) (some g) gen st).state) := by
  have h1 := generate_story_ok_nil hd hg gen s hp hgen st
  refine ⟨by rw [h1], by rw [h1]; rfl, by rw [h1], ?_⟩
  intro ans
  rw [h1]
  exact check_answer_finished rfl (by rw [hp]; exact Nat.zero_le 0) ans

/-- Witness for C6: StartGame with Hard and Horror receiving the empty
story responds with the 500 generation error, installs the empty story
at index 0, and a subsequent submission gets the already-finished
response. -/
theorem generate_story_empty_story_mutates_witness :
    (generate_story true (some "Hard") (some "Horror") (fun _ => .ok emptyStory)
      initialState).response = .genError "list index out of range" ∧
    (generate_story true (some "Hard") (some "Horror") (fun _ => .ok emptyStory)
      initialState).state = ⟨some emptyStory, 0⟩ ∧
    check_answer ⟨some emptyStory, 0⟩ "anything" =
      (.alreadyFinished, ⟨some emptyStory, 0⟩) := by
  obtain ⟨h1, -, h2, h3⟩ := generate_story_empty_story_mutates "Hard" "Horror"
    (by decide) (by decide) (fun _ => .ok emptyStory) emptyStory rfl rfl initialState
  refine ⟨h1, h2, ?_⟩
  have := h3 "anything"
  rwa [h2] at this

/-- C7: the requested puzzle count is exactly 7 for Easy, 5 for Medium,
3 for Hard and 5 for any other difficulty, and the narrative tone is the
fixed table entry for each of the five genres, falling back to the
neutral tone for any other genre; the fallback cases do not make
StartGame fail. -/
theorem prompt_count_and_tone :
    (difficulty_map "Easy" = 7 ∧ difficulty_map "Medium" = 5 ∧
      difficulty_map "Hard" = 3) ∧
    (∀ d, d ≠ "Easy" → d ≠ "Medium" → d ≠ "Hard" → difficulty_map d = 5) ∧
    (TONE_MAP "Sci-fi" =
        "Clinical, technical, focused on cosmic scale, system failures, or computer logs." ∧
      TONE_MAP "Medieval" =
        "Mythic, slightly formal, referring to royalty, oaths, divine law, and ancient structures." ∧
      TONE_MAP "Mythological" =
        "Epic, archaic language, focused on fate, gods, heroes, and destiny." ∧
      TONE_MAP "Horror" =
        "Suspenseful, sensory, using first-person dread, panic, and environmental details (smell, cold)." ∧
      TONE_MAP "Modern" =
        "Casual, journalistic, focused on news reports, conspiracy theories, or digital communications (text messages).") ∧
    (∀ g, g ≠ "Sci-fi" → g ≠ "Medieval" → g ≠ "Mythological" → g ≠ "Horror" →
      g ≠ "Modern" → TONE_MAP g = "Neutral and clear.") ∧
    (∀ (d g : String) (gen : String → Except String Story) (s : Story) (p : Puzzle)
      (rest : List Puzzle) (st : GameState), d ≠ "" → g ≠ "" →
      s.puzzles = p :: rest →
      gen (user_prompt (difficulty_map d) d g (TONE_MAP g)) = .ok s →
      GenResponse.isError
        (generate_story true (some d) (some g) gen st).response = false) := by
  refine ⟨⟨rfl, rfl, rfl⟩, ?_, ⟨rfl, rfl, rfl, rfl, rfl⟩, ?_, ?_⟩
  · intro d h1 h2 h3
    unfold difficulty_map
    rw [if_neg h1, if_neg h2, if_neg h3]
  · intro g h1 h2 h3 h4 h5
    unfold TONE_MAP
    rw [if_neg h1, if_neg h2, if_neg h3, if_neg h4, if_neg h5]
  · intro d g gen s p rest st hd hg hp hgen
    rw [generate_story_ok_cons hd hg gen s hp hgen st]
    rfl

/-- Witness for C7: the unrecognized difficulty `"Extreme"` falls back to
5 puzzles, the unrecognized genre `"Western"` falls back to the neutral
tone, and a StartGame request with those values still succeeds when
generation returns the one-puzzle story. -/
theorem prompt_count_and_tone_witness :
    difficulty_map "Extreme" = 5 ∧
    TONE_MAP "Western" = "Neutral and clear." ∧
    GenResponse.isError (generate_story true (some "Extreme") (some "Western")
      (fun _ => .ok oneStory) initialState).response = false := by
  refine ⟨?_, ?_, ?_⟩
  · exact prompt_count_and_tone.2.1 "Extreme" (by decide) (by decide) (by decide)
  · exact prompt_count_and_tone.2.2.2.1 "Western" (by decide) (by decide) (by decide)
      (by decide) (by decide)
  · exact prompt_count_and_tone.2.2.2.2 "Extreme" "Western" (fun _ => .ok oneStory)
      oneStory (mkPuzzle 1 "key" "n1") [] initialState (by decide) (by decide) rfl rfl

/-- C10: every successful StartGame call made while a previous story is
installed — whatever its progress — fully replaces the previous story
and resets the current puzzle index to 0. -/
theorem generate_story_replaces_previous
    (d g : String) (hd : d ≠ "") (hg : g ≠ "")
    (gen : String → Except String Story) (s : Story) (p : Puzzle) (rest : List Puzzle)
    (hp : s.puzzles = p :: rest)
    (hgen : gen (user_prompt (difficulty_map d) d g (TONE_MAP g)) = .ok s)
    (st : GameState) (prev : Story) (hprev : st.story = some prev) :
    (generate_story true (some d) (some g) gen st).state = ⟨some s, 0⟩ ∧
    (generate_story true (some d) (some g) gen st).response =
      .success s.story_title s.introduction p 1 s.puzzles.length := by
  have h1 := generate_story_ok_cons hd hg gen s hp hgen st
  exact ⟨by rw [h1], by rw [h1]⟩

/-- Witness for C10: restarting mid-progress (sample story at index 1)
with a successful generation of the one-puzzle story replaces the story
and resets the index to 0. -/
theorem generate_story_replaces_previous_witness :
    (generate_story true (some "Hard") (some "Sci-fi") (fun _ => .ok oneStory)
      ⟨some sampleStory, 1⟩).state = ⟨some oneStory, 0⟩ ∧
    (generate_story true (some "Hard") (some "Sci-fi") (fun _ => .ok oneStory)
      ⟨some sampleStory, 1⟩).response =
      .success "T1" "I1" (mkPuzzle 1 "key" "n1") 1 1 :=
  generate_story_replaces_previous "Hard" "Sci-fi" (by decide) (by decide)
    (fun _ => .ok oneStory) oneStory (mkPuzzle 1 "key" "n1") [] rfl rfl
    ⟨some sampleStory, 1⟩ sampleStory rfl

end ARG
